import Mathlib

/-!
Verification of the keyboard-focus-tracking subsystem of this repository:
`KeyboardFocusTracker` and `GlobalKeyboardMouseInteractionTracker`
(src/unnamed/part_001, i.e. packages/ckeditor5-utils/src/keyboardfocustracker.ts,
newer generation).

The embedding is a shallow one. The observable properties (`isKeyPressed`,
`isMouseMoved`, `focusedElement`, `isFocusedUsingKeyboard`) become fields of an
explicit state record; an observable `set` fires its change notification only
when the new value differs from the old one (standard ObservableMixin
semantics, spec §4.1: "no-op if the new value equals the old one"), and a fired
notification runs the subscribed callback synchronously. Each of the three
`KeyboardFocusTracker` callbacks is transliterated as a pure function; the
document-level listeners of `GlobalKeyboardMouseInteractionTracker` become a
step function on events, performing the property writes in source order.
-/

namespace KeyboardFocus

/-- A DOM element registered with the focus tracker, identified by a natural
number. -/
abbrev Element := Nat

/-- Document-level events for which `GlobalKeyboardMouseInteractionTracker`
registers capture-phase listeners in `_mountDocumentListeners`
(src/unnamed/part_001 lines 168-191): `keydown`, `keyup`, `mouseenter`,
`mouseleave`, `pointerenter`, `pointerleave`. The constructor `other` stands
for any other document event, for which the tracker registers no listener. -/
inductive DocEvent where
  | keydown
  | keyup
  | mouseenter
  | mouseleave
  | pointerenter
  | pointerleave
  | other
deriving DecidableEq, Repr

/-- Happenings at the external FocusTracker: a tracked element gains focus,
a tracked element loses focus, or the deferred blur timeout fires at the end
of the current dispatch turn. -/
inductive FocusEvent where
  | focus (el : Element)
  | blurEvt (el : Element)
  | flushBlur
deriving DecidableEq, Repr

/-- State of the composed system: one live `KeyboardFocusTracker`, the
`GlobalKeyboardMouseInteractionTracker` singleton it acquired, and the
external FocusTracker supplied to it.

* `isKeyPressed`, `isMouseMoved` — the observable signals of the singleton.
* `focusedElement`, `pendingBlur` — the state of the external FocusTracker
  (`pendingBlur` records a blur whose handling is deferred to the end of the
  dispatch turn).
* `isFocusedUsingKeyboard` — the derived observable of the
  `KeyboardFocusTracker`.
* `subMouseMoved`, `subKeyPressed`, `subFocusedElement` — whether the three
  subscriptions made in the `KeyboardFocusTracker` constructor
  (src lines 52-57) are currently attached.
* `docListenersMounted` — whether the document listeners of the
  `_domEmitter` of the singleton are attached.
* `refCount` — the `_totalInstances` counter of the singleton (a JS number, so it
  is an `Int`: the code can drive it below zero). -/
structure Sys where
  isKeyPressed : Bool
  isMouseMoved : Bool
  focusedElement : Option Element
  pendingBlur : Bool
  isFocusedUsingKeyboard : Bool
  subMouseMoved : Bool
  subKeyPressed : Bool
  subFocusedElement : Bool
  docListenersMounted : Bool
  refCount : Int
deriving DecidableEq, Repr

/-- KeyboardFocusTracker._watchMouseMoved (src lines 66-70):
`if (mouseMoved) { this.isFocusedUsingKeyboard = false; }`. -/
def watchMouseMoved (mouseMoved isFocusedUsingKeyboard : Bool) : Bool :=
  if mouseMoved then false else isFocusedUsingKeyboard

/-- KeyboardFocusTracker._watchIsKeyPressed (src lines 77-81):
`if (isKeyPressed) { this.isFocusedUsingKeyboard = this.focusTracker.isFocused; }`. -/
def watchIsKeyPressed (isKeyPressed focusTrackerIsFocused isFocusedUsingKeyboard : Bool) : Bool :=
  if isKeyPressed then focusTrackerIsFocused else isFocusedUsingKeyboard

/-- KeyboardFocusTracker._watchChangeFocusedElement (src lines 88-92):
`this.isFocusedUsingKeyboard = !!focusedElement && !isMouseMoved && isKeyPressed`,
reading `isMouseMoved` and `isKeyPressed` from the global tracker at the moment
the notification fires. -/
def watchChangeFocusedElement (focusedElement : Option Element)
    (isMouseMoved isKeyPressed : Bool) : Bool :=
  focusedElement.isSome && !isMouseMoved && isKeyPressed

/-- Modelled from the spec: the external FocusTracker (not under src/) exposes
a synchronously readable `isFocused` boolean "reflecting current state at the
moment it is read" (spec §6), true exactly when some tracked element currently
holds focus. -/
def isFocusedFT (s : Sys) : Bool :=
  s.focusedElement.isSome

/-- Observable write to the `isMouseMoved` signal of the singleton. Per ObservableMixin
semantics it fires `change:isMouseMoved` only when the value actually changes;
the fired notification runs `_watchMouseMoved` if that subscription is
attached. -/
def setIsMouseMoved (v : Bool) (s : Sys) : Sys :=
  if s.isMouseMoved = v then s
  else if s.subMouseMoved then
    { s with
      isMouseMoved := v
      isFocusedUsingKeyboard := watchMouseMoved v s.isFocusedUsingKeyboard }
  else { s with isMouseMoved := v }

/-- Observable write to the `isKeyPressed` signal of the singleton. Fires
`change:isKeyPressed` only on an actual change; the notification runs
`_watchIsKeyPressed`, which reads `focusTracker.isFocused` at fire time. -/
def setIsKeyPressed (v : Bool) (s : Sys) : Sys :=
  if s.isKeyPressed = v then s
  else if s.subKeyPressed then
    { s with
      isKeyPressed := v
      isFocusedUsingKeyboard :=
        watchIsKeyPressed v (isFocusedFT s) s.isFocusedUsingKeyboard }
  else { s with isKeyPressed := v }

/-- Observable write to the `focusedElement` of the FocusTracker. Fires
`change:focusedElement` only on an actual change; the notification runs
`_watchChangeFocusedElement`, which reads the signals of the global tracker at fire
time. -/
def setFocusedElement (el : Option Element) (s : Sys) : Sys :=
  if s.focusedElement = el then s
  else if s.subFocusedElement then
    { s with
      focusedElement := el
      isFocusedUsingKeyboard :=
        watchChangeFocusedElement el s.isMouseMoved s.isKeyPressed }
  else { s with focusedElement := el }

/-- Delivery of a document event to the document listeners of the singleton
(GlobalKeyboardMouseInteractionTracker._mountDocumentListeners,
src lines 168-191). The listeners run only while they are mounted. Property
writes happen in source order: `keydown` sets `isMouseMoved = false` then
`isKeyPressed = true`; `keyup` (handleResetKeyPress) sets
`isKeyPressed = false` then `isMouseMoved = false`; each mouse/pointer
enter/leave event (handleMouseMoved) sets `isMouseMoved = true`; no listener
exists for any other event. -/
def docStep (e : DocEvent) (s : Sys) : Sys :=
  if s.docListenersMounted then
    match e with
    | .keydown => setIsKeyPressed true (setIsMouseMoved false s)
    | .keyup => setIsMouseMoved false (setIsKeyPressed false s)
    | .mouseenter => setIsMouseMoved true s
    | .mouseleave => setIsMouseMoved true s
    | .pointerenter => setIsMouseMoved true s
    | .pointerleave => setIsMouseMoved true s
    | .other => s
  else s

/-- Modelled from the spec: the external FocusTracker (not under src/) emits
"a change notification carrying the newly focused element (or absence
thereof)" (spec §1, §6). Its blur handling is deferred to the end of the
current dispatch turn, so a blur immediately followed by a focus of a tracked
element in the same turn produces a single focused-element change notification
and no intermediate null notification — the behaviour spec §8.5 relies on when
it requires keyboard attribution to persist across a blur/focus pair.
`flushBlur` is the end-of-turn point at which a still-pending blur clears
`focusedElement`. -/
def ftStep (e : FocusEvent) (s : Sys) : Sys :=
  match e with
  | .focus el => setFocusedElement (some el) { s with pendingBlur := false }
  | .blurEvt _ => { s with pendingBlur := true }
  | .flushBlur =>
      if s.pendingBlur then setFocusedElement none { s with pendingBlur := false } else s

/-- An event delivered to the composed system: either a document event
handled by the global tracker, or a FocusTracker happening. -/
inductive Event where
  | doc (e : DocEvent)
  | ft (e : FocusEvent)
deriving DecidableEq, Repr

/-- One step of the composed system. -/
def step (e : Event) (s : Sys) : Sys :=
  match e with
  | .doc d => docStep d s
  | .ft f => ftStep f s

/-- Run a list of events from a state, left to right. -/
def run (evts : List Event) (s : Sys) : Sys :=
  evts.foldl (fun t e => step e t) s

/-- State right after `new KeyboardFocusTracker(focusTracker)` on a fresh
page: `isFocusedUsingKeyboard` initialized to false (src line 50), the
singleton freshly created with both signals false and document listeners
mounted (src lines 144-163), all three subscriptions attached
(src lines 52-57), nothing focused. -/
def init : Sys where
  isKeyPressed := false
  isMouseMoved := false
  focusedElement := none
  pendingBlur := false
  isFocusedUsingKeyboard := false
  subMouseMoved := true
  subKeyPressed := true
  subFocusedElement := true
  docListenersMounted := true
  refCount := 1

/-- Net effect of `GlobalKeyboardMouseInteractionTracker.destroy`
(src lines 197-211) on `_totalInstances`: the count is decremented; when the
decrement reaches zero the code calls `_instance!.destroy()` — the same
object — which decrements the count a second time (to -1, which is nonzero,
so the recursion stops there). -/
def destroyRefCount (n : Int) : Int :=
  if n - 1 = 0 then n - 2 else n - 1

/-- KeyboardFocusTracker.destroy (src lines 98-106), in source order:
`this.stopListening()` (the tracker itself listens to nothing via `listenTo`,
so no effect); `focusTracker.off` for `change:focusedElement`;
`_globalInteractionTracker.off` for `change:isMouseMoved`;
`_globalInteractionTracker.destroy()` — whose body (src lines 197-211) calls
`stopListening()` on the singleton (removing every remaining self-listener,
including the `change:isKeyPressed` subscription of this tracker),
`_domEmitter.stopListening()` (unmounting the document listeners), resets both
signals to false (no notification fires: the subscribers were just removed),
and updates the count as in `destroyRefCount`; finally
`this.isFocusedUsingKeyboard = false`. The own state of the FocusTracker is
never touched. -/
def kftDestroy (s : Sys) : Sys :=
  { s with
    subFocusedElement := false
    subMouseMoved := false
    subKeyPressed := false
    docListenersMounted := false
    isKeyPressed := false
    isMouseMoved := false
    refCount := destroyRefCount s.refCount
    isFocusedUsingKeyboard := false }

/-!
Lifecycle model of the reference-counted singleton. The static fields
`_instance` and `_totalInstances` of `GlobalKeyboardMouseInteractionTracker`
live here together with the own observable signals of the singleton and the mount
state of its document listeners. Because the constructor returns the existing
`_instance` when one is live, every consumer holds the very same object, so
`destroy()` always executes on the singleton itself.
-/

/-- The static state of `GlobalKeyboardMouseInteractionTracker` together with
the fields of the singleton: whether `_instance` is non-null, the
`_totalInstances` counter (an `Int`: the code can drive it below zero), how
many times `_mountDocumentListeners` has run, whether the document listeners
are currently attached, and the two signals. -/
structure TrackerRegistry where
  instanceLive : Bool
  totalInstances : Int
  mountCount : Nat
  docListenersMounted : Bool
  isKeyPressed : Bool
  isMouseMoved : Bool
deriving DecidableEq, Repr

/-- State of the page before any consumer is constructed. -/
def emptyRegistry : TrackerRegistry where
  instanceLive := false
  totalInstances := 0
  mountCount := 0
  docListenersMounted := false
  isKeyPressed := false
  isMouseMoved := false

/-- GlobalKeyboardMouseInteractionTracker constructor (src lines 144-163):
increments `_totalInstances`; if `_instance` is already set, returns it (the
`new` expression yields the existing object, nothing else runs); otherwise
records this object as `_instance`, initializes both signals to false and
mounts the document listeners. -/
def trackerConstruct (r : TrackerRegistry) : TrackerRegistry :=
  let r1 := { r with totalInstances := r.totalInstances + 1 }
  if r1.instanceLive then r1
  else
    { r1 with
      instanceLive := true
      isKeyPressed := false
      isMouseMoved := false
      docListenersMounted := true
      mountCount := r1.mountCount + 1 }

/-- Body of GlobalKeyboardMouseInteractionTracker.destroy (src lines
197-211): `stopListening()` and `_domEmitter.stopListening()` detach the
document listeners unconditionally, both signals are reset to false,
`_totalInstances` is decremented, and if it reached zero the code calls
`_instance!.destroy()` — the same object, recursively — and then clears
`_instance`. The fuel argument only bounds that self-call: the inner call
decrements the count to -1, which is nonzero, so the recursion never goes
deeper than two frames and fuel 2 reproduces the JS behaviour exactly. -/
def trackerDestroyAux : Nat → TrackerRegistry → TrackerRegistry
  | 0, r => r
  | fuel + 1, r =>
    let r1 := { r with
      docListenersMounted := false
      isKeyPressed := false
      isMouseMoved := false
      totalInstances := r.totalInstances - 1 }
    if r1.totalInstances = 0 then
      { trackerDestroyAux fuel r1 with instanceLive := false }
    else r1

/-- GlobalKeyboardMouseInteractionTracker.destroy, as called once by a
consumer (`KeyboardFocusTracker.destroy`, src line 104). -/
def trackerDestroy (r : TrackerRegistry) : TrackerRegistry :=
  trackerDestroyAux 2 r

/-- Construct `n` consumers in a row (each `new KeyboardFocusTracker`
constructs the global tracker once, src line 52). -/
def constructN : Nat → TrackerRegistry → TrackerRegistry
  | 0, r => r
  | n + 1, r => constructN n (trackerConstruct r)

/-- Destroy `n` consumers in a row. -/
def destroyN : Nat → TrackerRegistry → TrackerRegistry
  | 0, r => r
  | n + 1, r => destroyN n (trackerDestroy r)

/-!
Helper lemmas shared by the claim theorems.
-/

/-- No event of the composed system detaches a subscription, unmounts the
document listeners or touches the reference count: only destroy does. -/
theorem step_flags (e : Event) (s : Sys) :
    (step e s).subMouseMoved = s.subMouseMoved ∧
    (step e s).subKeyPressed = s.subKeyPressed ∧
    (step e s).subFocusedElement = s.subFocusedElement ∧
    (step e s).docListenersMounted = s.docListenersMounted ∧
    (step e s).refCount = s.refCount := by
  rcases e with d | f
  · cases d <;>
      simp [step, docStep, setIsMouseMoved, setIsKeyPressed, setFocusedElement] <;>
      (try split_ifs) <;> simp_all
  · cases f <;>
      simp [step, ftStep, setFocusedElement] <;>
      (try split_ifs) <;> simp_all

/-- Invariant of a live system: all three subscriptions attached, document
listeners mounted, and keyboard attribution implies the mouse has not moved
since the last key press. -/
def Inv (s : Sys) : Prop :=
  s.subMouseMoved = true ∧ s.subKeyPressed = true ∧ s.subFocusedElement = true ∧
  s.docListenersMounted = true ∧
  (s.isFocusedUsingKeyboard = true → s.isMouseMoved = false)

theorem inv_init : Inv init := by
  simp [Inv, init]

theorem inv_step (e : Event) (s : Sys) (h : Inv s) : Inv (step e s) := by
  obtain ⟨h1, h2, h3, h4, h5⟩ := h
  rcases e with d | f
  · cases d <;>
      simp [step, docStep, setIsMouseMoved, setIsKeyPressed, setFocusedElement,
        watchMouseMoved, watchIsKeyPressed, watchChangeFocusedElement, Inv,
        h1, h2, h3, h4] <;>
      (try split_ifs) <;> simp_all
  · cases f <;>
      simp [step, ftStep, setFocusedElement, watchChangeFocusedElement, Inv,
        h1, h2, h3, h4] <;>
      (try split_ifs) <;> simp_all

theorem inv_run (evts : List Event) (s : Sys) (h : Inv s) : Inv (run evts s) := by
  induction evts generalizing s with
  | nil => exact h
  | cons e rest ih => exact ih _ (inv_step e s h)

/-- A state of a live `KeyboardFocusTracker`: reachable from construction by
some sequence of document and focus-tracker events. -/
def Reachable (s : Sys) : Prop :=
  ∃ evts, run evts init = s

theorem reachable_inv (s : Sys) (h : Reachable s) : Inv s := by
  obtain ⟨evts, rfl⟩ := h
  exact inv_run evts init inv_init

theorem run_append (l1 l2 : List Event) (s : Sys) :
    run (l1 ++ l2) s = run l2 (run l1 s) :=
  List.foldl_append _ _ l1 l2

theorem run_cons (e : Event) (l : List Event) (s : Sys) :
    run (e :: l) s = run l (step e s) := rfl

/-- After `KeyboardFocusTracker.destroy`, every event leaves the derived
boolean untouched: document events find no mounted listener and focus-tracker
notifications find no subscribed callback. -/
theorem step_dead (e : Event) (s : Sys)
    (h3 : s.subFocusedElement = false) (h4 : s.docListenersMounted = false) :
    (step e s).isFocusedUsingKeyboard = s.isFocusedUsingKeyboard := by
  rcases e with d | f
  · cases d <;> simp [step, docStep, h4]
  · cases f <;>
      simp [step, ftStep, setFocusedElement, h3] <;>
      (try split_ifs) <;> simp_all

theorem run_dead (evts : List Event) (s : Sys)
    (h3 : s.subFocusedElement = false) (h4 : s.docListenersMounted = false) :
    (run evts s).isFocusedUsingKeyboard = s.isFocusedUsingKeyboard := by
  induction evts generalizing s with
  | nil => rfl
  | cons e rest ih =>
      rw [run_cons, ih _ ((step_flags e s).2.2.1.trans h3)
        ((step_flags e s).2.2.2.1.trans h4), step_dead e s h3 h4]

/-- Events that neither release the held key nor move the mouse: everything
except `keyup` and the four mouse/pointer enter/leave events. -/
def noKeyupNoMouse : Event → Bool
  | .doc .keyup => false
  | .doc .mouseenter => false
  | .doc .mouseleave => false
  | .doc .pointerenter => false
  | .doc .pointerleave => false
  | _ => true

/-- While a key is held and the mouse has not moved, any event other than a
`keyup` or a mouse/pointer event keeps the key held and the mouse unmoved. -/
theorem step_keyhold (e : Event) (s : Sys)
    (he : noKeyupNoMouse e = true)
    (hk : s.isKeyPressed = true) (hm : s.isMouseMoved = false) :
    (step e s).isKeyPressed = true ∧ (step e s).isMouseMoved = false := by
  rcases e with d | f
  · cases d <;> simp_all [noKeyupNoMouse, step, docStep, setIsMouseMoved, setIsKeyPressed] <;>
      (try split_ifs) <;> simp_all
  · cases f <;> simp_all [step, ftStep, setFocusedElement] <;>
      (try split_ifs) <;> simp_all

theorem run_keyhold (evts : List Event) (s : Sys)
    (he : ∀ e ∈ evts, noKeyupNoMouse e = true)
    (hk : s.isKeyPressed = true) (hm : s.isMouseMoved = false) :
    (run evts s).isKeyPressed = true ∧ (run evts s).isMouseMoved = false := by
  induction evts generalizing s with
  | nil => exact ⟨hk, hm⟩
  | cons e rest ih =>
      have h := step_keyhold e s (he e (by simp)) hk hm
      exact ih (step e s) (fun x hx => he x (by simp [hx])) h.1 h.2

/-- Delivering `keydown` to mounted listeners leaves the key held and the
mouse unmoved, and does not touch the focus tracker. -/
theorem keydown_signals (s : Sys) (hmnt : s.docListenersMounted = true) :
    (docStep .keydown s).isKeyPressed = true ∧
    (docStep .keydown s).isMouseMoved = false ∧
    (docStep .keydown s).focusedElement = s.focusedElement := by
  simp [docStep, hmnt, setIsMouseMoved, setIsKeyPressed] <;> split_ifs <;> simp_all

/-- A focused-element change notification that actually fires while a key is
held and the mouse has not moved attributes the focus to the keyboard. -/
theorem focus_fire_true (s : Sys) (A : Element)
    (hsub : s.subFocusedElement = true) (hk : s.isKeyPressed = true)
    (hm : s.isMouseMoved = false) (hfire : s.focusedElement ≠ some A) :
    (step (.ft (.focus A)) s).isFocusedUsingKeyboard = true := by
  simp [step, ftStep, setFocusedElement, hfire, hsub, watchChangeFocusedElement, hk, hm]

/-!
Claim theorems.
-/

/-- C1: for every focused-element change notification delivered to a
`KeyboardFocusTracker` (with the new focused element as payload), the handler
sets `isFocusedUsingKeyboard` to exactly
the conjunction of focusedElement being non-null, NOT isMouseMoved, and
isKeyPressed, reading
both global signals at the moment the notification fires. -/
theorem focusChange_sets_keyboard_attribution (s : Sys) (el : Option Element)
    (hsub : s.subFocusedElement = true) (hch : s.focusedElement ≠ el) :
    (setFocusedElement el s).isFocusedUsingKeyboard =
      (el.isSome && !s.isMouseMoved && s.isKeyPressed) := by
  simp [setFocusedElement, hch, hsub, watchChangeFocusedElement]

/-- C1 witness: the theorem applied to the freshly constructed system and a
focus change to element 0. -/
theorem focusChange_sets_keyboard_attribution_witness :
    init.subFocusedElement = true ∧ init.focusedElement ≠ some 0 ∧
    (setFocusedElement (some 0) init).isFocusedUsingKeyboard =
      ((some 0 : Option Element).isSome && !init.isMouseMoved && init.isKeyPressed) :=
  ⟨by decide, by decide,
    focusChange_sets_keyboard_attribution init (some 0) (by decide) (by decide)⟩

/-- C4: for every reachable state of a live `KeyboardFocusTracker`, delivering
any mouse/pointer enter/leave event forces `isFocusedUsingKeyboard` to false,
regardless of the current focused element and of whether a key is pressed
(when the event makes `isMouseMoved` transition to true the handler fires and
clears the flag; when `isMouseMoved` is already true the live-system invariant
shows the flag was already false). -/
theorem mouse_event_forces_not_keyboard (s : Sys) (e : DocEvent)
    (hr : Reachable s)
    (he : e = DocEvent.mouseenter ∨ e = DocEvent.mouseleave ∨
          e = DocEvent.pointerenter ∨ e = DocEvent.pointerleave) :
    (docStep e s).isFocusedUsingKeyboard = false := by
  obtain ⟨h1, h2, h3, h4, h5⟩ := reachable_inv s hr
  have key : (setIsMouseMoved true s).isFocusedUsingKeyboard = false := by
    by_cases hm : s.isMouseMoved = true
    · simp [setIsMouseMoved, hm]
      cases hf : s.isFocusedUsingKeyboard
      · rfl
      · exact absurd (h5 hf) (by simp [hm])
    · simp at hm
      simp [setIsMouseMoved, hm, h1, watchMouseMoved]
  rcases he with rfl | rfl | rfl | rfl <;> simpa [docStep, h4] using key

/-- C4 witness: the theorem applied to the reachable state in which element 3
was focused during a key hold (`isFocusedUsingKeyboard` is true there), for a
`mouseenter` event. -/
theorem mouse_event_forces_not_keyboard_witness :
    Reachable (run [Event.doc .keydown, Event.ft (.focus 3)] init) ∧
    (run [Event.doc .keydown, Event.ft (.focus 3)] init).isFocusedUsingKeyboard = true ∧
    (docStep .mouseenter
      (run [Event.doc .keydown, Event.ft (.focus 3)] init)).isFocusedUsingKeyboard = false :=
  ⟨⟨_, rfl⟩, by decide,
    mouse_event_forces_not_keyboard _ _ ⟨_, rfl⟩ (Or.inl rfl)⟩

/-- C5: whenever `isKeyPressed` transitions to true, the handler sets
`isFocusedUsingKeyboard` to the current `focusTracker.isFocused`; delivering
`keydown` to a live system therefore sets it to whether an element is focused,
and in particular an element focused with no prior key involvement
(`isFocusedUsingKeyboard` false) becomes attributed to the keyboard when a
`keydown` fires. -/
theorem keyPressed_rise_reads_isFocused (s : Sys)
    (hsub : s.subKeyPressed = true) (hkp : s.isKeyPressed = false)
    (hmnt : s.docListenersMounted = true) :
    (setIsKeyPressed true s).isFocusedUsingKeyboard = isFocusedFT s ∧
    (docStep .keydown s).isFocusedUsingKeyboard = s.focusedElement.isSome ∧
    (s.isFocusedUsingKeyboard = false → s.focusedElement.isSome = true →
      (docStep .keydown s).isFocusedUsingKeyboard = true) := by
  have h1 : (setIsKeyPressed true s).isFocusedUsingKeyboard = isFocusedFT s := by
    simp [setIsKeyPressed, hkp, hsub, watchIsKeyPressed]
  have h2 : (docStep .keydown s).isFocusedUsingKeyboard = s.focusedElement.isSome := by
    simp [docStep, hmnt, setIsMouseMoved, setIsKeyPressed, watchMouseMoved,
      watchIsKeyPressed, isFocusedFT, hkp, hsub]
    split_ifs <;> simp_all
  exact ⟨h1, h2, fun _ hf => h2.trans hf⟩

/-- C5 witness: the theorem applied to the reachable state in which element 2
is focused, no key is pressed and `isFocusedUsingKeyboard` is false; a
`keydown` then makes `isFocusedUsingKeyboard` true. -/
theorem keyPressed_rise_reads_isFocused_witness :
    (run [Event.ft (.focus 2)] init).subKeyPressed = true ∧
    (run [Event.ft (.focus 2)] init).isKeyPressed = false ∧
    (run [Event.ft (.focus 2)] init).docListenersMounted = true ∧
    (run [Event.ft (.focus 2)] init).isFocusedUsingKeyboard = false ∧
    (docStep .keydown (run [Event.ft (.focus 2)] init)).isFocusedUsingKeyboard = true :=
  ⟨by decide, by decide, by decide, by decide,
    (keyPressed_rise_reads_isFocused _ (by decide) (by decide) (by decide)).2.2
      (by decide) (by decide)⟩

/-- C6: with the document listeners mounted, the transitions are exactly:
`keydown` sets `isKeyPressed` to true and `isMouseMoved` to false; `keyup`
sets both to false; each of `mouseenter`, `mouseleave`, `pointerenter` and
`pointerleave` sets `isMouseMoved` to true and leaves `isKeyPressed` alone;
any other document event leaves the state untouched; and no focus-tracker
event mutates either signal. -/
theorem document_event_transitions (s : Sys) (hmnt : s.docListenersMounted = true) :
    ((docStep .keydown s).isKeyPressed = true ∧ (docStep .keydown s).isMouseMoved = false) ∧
    ((docStep .keyup s).isKeyPressed = false ∧ (docStep .keyup s).isMouseMoved = false) ∧
    (∀ e : DocEvent,
      e = DocEvent.mouseenter ∨ e = DocEvent.mouseleave ∨
      e = DocEvent.pointerenter ∨ e = DocEvent.pointerleave →
      (docStep e s).isMouseMoved = true ∧ (docStep e s).isKeyPressed = s.isKeyPressed) ∧
    (docStep .other s = s) ∧
    (∀ f : FocusEvent,
      (ftStep f s).isKeyPressed = s.isKeyPressed ∧
      (ftStep f s).isMouseMoved = s.isMouseMoved) := by
  refine ⟨?_, ?_, ?_, ?_, ?_⟩
  · simp [docStep, hmnt, setIsMouseMoved, setIsKeyPressed] <;> split_ifs <;> simp_all
  · simp [docStep, hmnt, setIsMouseMoved, setIsKeyPressed] <;> split_ifs <;> simp_all
  · rintro e (rfl | rfl | rfl | rfl) <;>
      simp [docStep, hmnt, setIsMouseMoved] <;> split_ifs <;> simp_all
  · simp [docStep, hmnt]
  · intro f
    cases f <;> simp [ftStep, setFocusedElement] <;> (try split_ifs) <;> simp_all

/-- C6 witness: the theorem applied to the freshly constructed system. -/
theorem document_event_transitions_witness :
    init.docListenersMounted = true ∧
    (((docStep .keydown init).isKeyPressed = true ∧
      (docStep .keydown init).isMouseMoved = false) ∧
    ((docStep .keyup init).isKeyPressed = false ∧ (docStep .keyup init).isMouseMoved = false) ∧
    (∀ e : DocEvent,
      e = DocEvent.mouseenter ∨ e = DocEvent.mouseleave ∨
      e = DocEvent.pointerenter ∨ e = DocEvent.pointerleave →
      (docStep e init).isMouseMoved = true ∧ (docStep e init).isKeyPressed = init.isKeyPressed) ∧
    (docStep .other init = init) ∧
    (∀ f : FocusEvent,
      (ftStep f init).isKeyPressed = init.isKeyPressed ∧
      (ftStep f init).isMouseMoved = init.isMouseMoved)) :=
  ⟨by decide, document_event_transitions init (by decide)⟩

/-- C9: for the sequence keydown, focus A, blur A, focus B with no intervening
mouse/pointer event and no keyup, `isFocusedUsingKeyboard` is true at every
point after the first focus event, including between the blur of A and the
focus of B (the blur only schedules the deferred clearing, which the focus of
B cancels). -/
theorem blur_refocus_preserves_attribution (A B : Element) :
    (run [Event.doc .keydown, Event.ft (.focus A)] init).isFocusedUsingKeyboard = true ∧
    (run [Event.doc .keydown, Event.ft (.focus A), Event.ft (.blurEvt A)]
      init).isFocusedUsingKeyboard = true ∧
    (run [Event.doc .keydown, Event.ft (.focus A), Event.ft (.blurEvt A), Event.ft (.focus B)]
      init).isFocusedUsingKeyboard = true := by
  simp [run, step, docStep, ftStep, init, setIsKeyPressed, setIsMouseMoved, setFocusedElement,
    watchIsKeyPressed, watchMouseMoved, watchChangeFocusedElement, isFocusedFT]
  split_ifs <;> simp_all

/-- C8 as stated is false on the code: a mouse event delivered between the
keydown and the focus event leaves `isMouseMoved` true, so the focus-change
handler computes false even though the keydown preceded the focus and no keyup
intervened. -/
theorem keydown_mouse_focus_not_attributed :
    (run [Event.doc .keydown, Event.doc .mouseenter, Event.ft (.focus 0)]
      init).isFocusedUsingKeyboard = false := by
  decide

/-- C8 amended: for every event sequence in which a keydown is delivered and
then a focused-element change notification carrying element A is processed
before any keyup and with no mouse/pointer enter/leave event in between,
`isFocusedUsingKeyboard` is true immediately after that notification is
processed. -/
theorem keydown_then_focus_attributed (pre mid : List Event) (A : Element)
    (hmid : ∀ e ∈ mid, noKeyupNoMouse e = true)
    (hfire : (run (pre ++ Event.doc .keydown :: mid) init).focusedElement ≠ some A) :
    (run (pre ++ Event.doc .keydown :: (mid ++ [Event.ft (.focus A)]))
      init).isFocusedUsingKeyboard = true := by
  obtain ⟨h1, h2, h3, h4, h5⟩ := inv_run pre init inv_init
  have hkd := keydown_signals (run pre init) h4
  have heq : run (pre ++ Event.doc .keydown :: mid) init
      = run mid (step (.doc .keydown) (run pre init)) := by
    rw [show pre ++ Event.doc .keydown :: mid = pre ++ ([Event.doc .keydown] ++ mid) by simp,
      run_append, run_append]
    rfl
  have hmidrun := run_keyhold mid (step (.doc .keydown) (run pre init)) hmid hkd.1 hkd.2.1
  obtain ⟨g1, g2, g3, g4, g5⟩ : Inv (run mid (step (.doc .keydown) (run pre init))) :=
    heq ▸ inv_run _ init inv_init
  rw [heq] at hfire
  rw [show pre ++ Event.doc .keydown :: (mid ++ [Event.ft (.focus A)])
      = (pre ++ Event.doc .keydown :: mid) ++ [Event.ft (.focus A)] by simp,
    run_append, heq]
  exact focus_fire_true _ A g3 hmidrun.1 hmidrun.2 hfire

/-- C8 amended, witness: the empty prefix and middle, with element 0. -/
theorem keydown_then_focus_attributed_witness :
    (∀ e ∈ ([] : List Event), noKeyupNoMouse e = true) ∧
    (run ([] ++ Event.doc .keydown :: []) init).focusedElement ≠ some 0 ∧
    (run ([] ++ Event.doc .keydown :: ([] ++ [Event.ft (.focus 0)]))
      init).isFocusedUsingKeyboard = true :=
  ⟨by simp, by decide,
    keydown_then_focus_attributed [] [] 0 (by simp) (by decide)⟩

/-- C10: falling edges leave the derived boolean untouched: a change
notification in which `isKeyPressed` becomes false or `isMouseMoved` becomes
false leaves `isFocusedUsingKeyboard` unchanged, and so does a full `keyup`
delivery. -/
theorem falling_edges_leave_attribution (s : Sys) :
    (setIsKeyPressed false s).isFocusedUsingKeyboard = s.isFocusedUsingKeyboard ∧
    (setIsMouseMoved false s).isFocusedUsingKeyboard = s.isFocusedUsingKeyboard ∧
    (docStep .keyup s).isFocusedUsingKeyboard = s.isFocusedUsingKeyboard := by
  refine ⟨?_, ?_, ?_⟩ <;>
    simp [docStep, setIsKeyPressed, setIsMouseMoved, watchIsKeyPressed, watchMouseMoved] <;>
    (try split_ifs) <;> simp_all

/-- C3: `KeyboardFocusTracker.destroy` detaches all three subscriptions,
releases the global tracker (the reference count decreases), never touches the
state of the supplied focus tracker, resets `isFocusedUsingKeyboard` to false,
and afterwards no delivered event ever changes `isFocusedUsingKeyboard`
again. -/
theorem destroy_detaches_and_resets (s : Sys) (evts : List Event) :
    (kftDestroy s).subFocusedElement = false ∧
    (kftDestroy s).subMouseMoved = false ∧
    (kftDestroy s).subKeyPressed = false ∧
    (kftDestroy s).refCount ≤ s.refCount - 1 ∧
    (kftDestroy s).focusedElement = s.focusedElement ∧
    (kftDestroy s).pendingBlur = s.pendingBlur ∧
    (kftDestroy s).isFocusedUsingKeyboard = false ∧
    (run evts (kftDestroy s)).isFocusedUsingKeyboard = false := by
  refine ⟨rfl, rfl, rfl, ?_, rfl, rfl, rfl, ?_⟩
  · simp only [kftDestroy, destroyRefCount]
    split_ifs <;> omega
  · rw [run_dead evts (kftDestroy s) rfl rfl]
    rfl

/-- C2: the claim fails on the code. Constructing two consumers mounts exactly
one set of document listeners, but destroying just one of the two (reference
count 2 to 1, not zero) already unmounts the document listeners, because
`GlobalKeyboardMouseInteractionTracker.destroy` calls
`_domEmitter.stopListening()` unconditionally before the reference-count
check. -/
theorem destroy_unmounts_listeners_early :
    (constructN 2 emptyRegistry).mountCount = 1 ∧
    (constructN 2 emptyRegistry).totalInstances = 2 ∧
    (constructN 2 emptyRegistry).docListenersMounted = true ∧
    (trackerDestroy (constructN 2 emptyRegistry)).totalInstances = 1 ∧
    (trackerDestroy (constructN 2 emptyRegistry)).docListenersMounted = false := by
  decide

/-- C7: the claim fails on the code beyond the first acquire/release cycle.
The first cycle does unmount the listeners, reset the signals and clear the
singleton slot, but the recursive self-destroy in the zero branch decrements
`_totalInstances` twice, leaving it at -1; the release of the second cycle
therefore decrements 0 to -1, never sees zero and does not clear the slot, so
the acquire of the third cycle returns the already-destroyed instance with no
document listeners mounted (the mount counter stays at 2). -/
theorem refcount_cycles_break :
    (trackerDestroy (trackerConstruct emptyRegistry)).instanceLive = false ∧
    (trackerDestroy (trackerConstruct emptyRegistry)).docListenersMounted = false ∧
    (trackerDestroy (trackerConstruct emptyRegistry)).isKeyPressed = false ∧
    (trackerDestroy (trackerConstruct emptyRegistry)).isMouseMoved = false ∧
    (trackerDestroy (trackerConstruct emptyRegistry)).totalInstances = -1 ∧
    (trackerDestroy (trackerConstruct (trackerDestroy
      (trackerConstruct emptyRegistry)))).instanceLive = true ∧
    (trackerConstruct (trackerDestroy (trackerConstruct (trackerDestroy
      (trackerConstruct emptyRegistry))))).docListenersMounted = false ∧
    (trackerConstruct (trackerDestroy (trackerConstruct (trackerDestroy
      (trackerConstruct emptyRegistry))))).mountCount = 2 := by
  decide

end KeyboardFocus
